import Mathlib

/-!
Verification of the NaPTAN public-transport stop finder (`pt_finder.py`).

The development shallowly embeds the core of the program:
* `mode_from_stoptype` — stop-type classification (exact table + heuristics);
* `build_naptan_index` — column resolution, coordinate cleaning, index build;
* radius queries over the haversine metric and the per-mode aggregations
  (`counts_by_mode`, `nearest_by_mode`).

Python strings are embedded through their character lists: `strip()` becomes
`pyStrip`, `upper()` becomes `pyUpper`, `startswith` becomes `leadMatch` and
the `in` containment test becomes `hasSub`, all structural recursions over
`List Char` so that concrete instances evaluate inside proofs.
-/

namespace PTFinder

/-- A Python value as seen by `mode_from_stoptype`: either a string or some
non-string value (None, NaN, a number, ...). -/
inductive PyVal where
  | str (s : String)
  | nonStr
deriving DecidableEq, Repr

/-- `leadMatch pat l` holds when `pat` matches the front of `l`
(char-list version of Python's `startswith`). -/
def leadMatch : List Char → List Char → Bool
  | [], _ => true
  | _ :: _, [] => false
  | a :: as, b :: bs => a == b && leadMatch as bs

/-- `hasSub pat l` is Python's `pat in l`: `pat` occurs contiguously in `l`. -/
def hasSub (pat : List Char) : List Char → Bool
  | [] => leadMatch pat []
  | b :: bs => leadMatch pat (b :: bs) || hasSub pat bs

/-- Python's `str.strip()`: drop whitespace from both ends. -/
def pyStrip (l : List Char) : List Char :=
  ((l.dropWhile Char.isWhitespace).reverse.dropWhile Char.isWhitespace).reverse

/-- Python's `str.upper()` (ASCII case mapping). -/
def pyUpper (l : List Char) : List Char := l.map Char.toUpper

/-- The fixed `STOPTYPE_TO_MODE` mapping of `pt_finder.py`, as an
association list in source order. -/
def STOPTYPE_TO_MODE : List (String × String) :=
  [("BCT", "bus"), ("BCS", "bus"), ("BST", "bus"), ("BCE", "bus"), ("BCQ", "bus"),
   ("RLY", "rail"), ("RSE", "rail"), ("RPL", "rail"),
   ("MET", "metro"), ("MTR", "metro"), ("UND", "metro"),
   ("TRM", "tram"), ("LRT", "tram"),
   ("FER", "ferry"), ("FTD", "ferry")]

/-- Python dictionary lookup `STOPTYPE_TO_MODE[s]` (keys are distinct, so
first-match lookup agrees with the dictionary). -/
def tableLookup (s : List Char) : List (String × String) → Option String
  | [] => none
  | (k, v) :: rest => if s = k.toList then some v else tableLookup s rest

/-- The six transport modes the classifier can produce. -/
def allModes : List String := ["bus", "rail", "metro", "tram", "ferry", "other"]

/-- Embedding of `mode_from_stoptype` from `pt_finder.py`: non-strings map to
`"other"`; otherwise strip + uppercase, exact table lookup, then the ordered
heuristics on the leading character / contained fragments. -/
def mode_from_stoptype (stop_type : PyVal) : String :=
  match stop_type with
  | .nonStr => "other"
  | .str t =>
    let s := pyUpper (pyStrip t.toList)
    if s = [] then "other"
    else
      match tableLookup s STOPTYPE_TO_MODE with
      | some m => m
      | none =>
        if leadMatch "B".toList s then "bus"
        else if leadMatch "R".toList s then "rail"
        else if leadMatch "M".toList s || hasSub "UNDER".toList s || hasSub "METRO".toList s then
          "metro"
        else if leadMatch "T".toList s || hasSub "TRAM".toList s || hasSub "LIGHT".toList s then
          "tram"
        else if leadMatch "F".toList s || hasSub "FERR".toList s then "ferry"
        else "other"

/-- Modelled from the spec (§4.1, step 3): the fallback heuristics as an
explicitly ordered list of (test, mode) pairs — bus before rail before metro
before tram before ferry. -/
def specHeuristics : List ((List Char → Bool) × String) :=
  [(fun s => leadMatch "B".toList s, "bus"),
   (fun s => leadMatch "R".toList s, "rail"),
   (fun s => leadMatch "M".toList s || hasSub "UNDER".toList s || hasSub "METRO".toList s,
    "metro"),
   (fun s => leadMatch "T".toList s || hasSub "TRAM".toList s || hasSub "LIGHT".toList s,
    "tram"),
   (fun s => leadMatch "F".toList s || hasSub "FERR".toList s, "ferry")]

/-- First entry of the heuristic list whose test fires; `"other"` when none
does. -/
def firstHeuristic (s : List Char) : List ((List Char → Bool) × String) → String
  | [] => "other"
  | h :: hs => if h.1 s then h.2 else firstHeuristic s hs

/-- Modelled from the spec (§4.1): `"other"` for non-strings; trim and
uppercase; `"other"` when empty; exact table match; else the ordered
heuristic list. -/
def classify_spec (raw : PyVal) : String :=
  match raw with
  | .nonStr => "other"
  | .str t =>
    let s := pyUpper (pyStrip t.toList)
    if s = [] then "other"
    else
      match tableLookup s STOPTYPE_TO_MODE with
      | some m => m
      | none => firstHeuristic s specHeuristics

/-- A successful table lookup returns one of the table's values. -/
lemma tableLookup_mem {s : List Char} {l : List (String × String)} {m : String}
    (h : tableLookup s l = some m) : m ∈ l.map Prod.snd := by
  induction l with
  | nil => simp [tableLookup] at h
  | cons p rest ih =>
    obtain ⟨k, v⟩ := p
    rw [tableLookup] at h
    split at h
    · cases h; simp
    · exact List.mem_cons_of_mem _ (ih h)

/-- Every value of the concrete stop-type table is one of the six modes. -/
lemma table_value_mem {m : String} (h : m ∈ STOPTYPE_TO_MODE.map Prod.snd) :
    m ∈ allModes := by
  fin_cases h <;> decide

/-- The classifier always lands in the six-element mode vocabulary. -/
lemma mode_from_stoptype_mem (v : PyVal) : mode_from_stoptype v ∈ allModes := by
  cases v with
  | nonStr => decide
  | str t =>
    unfold mode_from_stoptype
    simp only
    split
    · decide
    · split
      · next m heq => exact table_value_mem (tableLookup_mem heq)
      · split
        · decide
        · split
          · decide
          · split
            · decide
            · split
              · decide
              · split <;> decide

/-- C3: `mode_from_stoptype` trims and uppercases its input, answers an exact
match against the fixed known-code table, and otherwise applies the fallback
heuristics in exactly the spec's order (bus before rail before metro before
tram before ferry): it coincides with the spec-ordered classifier on every
input. -/
theorem mode_from_stoptype_follows_spec_order (v : PyVal) :
    mode_from_stoptype v = classify_spec v := by
  cases v <;> rfl

/-- C9: on every input — any string (empty or gibberish included) or any
non-string value — the classifier terminates with exactly one of the six
modes; as a total Lean function it is pure and deterministic and raises
nothing. -/
theorem mode_from_stoptype_total (v : PyVal) : mode_from_stoptype v ∈ allModes :=
  mode_from_stoptype_mem v

/-- C10: each of the six mode names is a fixed point of the classifier, hence
re-classifying classifier output never changes the mode. -/
theorem mode_from_stoptype_idem :
    (mode_from_stoptype (.str "bus") = "bus" ∧
     mode_from_stoptype (.str "rail") = "rail" ∧
     mode_from_stoptype (.str "metro") = "metro" ∧
     mode_from_stoptype (.str "tram") = "tram" ∧
     mode_from_stoptype (.str "ferry") = "ferry" ∧
     mode_from_stoptype (.str "other") = "other") ∧
    ∀ v : PyVal,
      mode_from_stoptype (.str (mode_from_stoptype v)) = mode_from_stoptype v := by
  refine ⟨by decide, fun v => ?_⟩
  have h := mode_from_stoptype_mem v
  simp only [allModes, List.mem_cons, List.not_mem_nil, or_false] at h
  rcases h with h | h | h | h | h | h <;> rw [h] <;> decide

/-! ## Dataset model, column resolution and index construction -/

/-- A dataset cell as `build_naptan_index` sees it.  String cells record the
outcome of `pd.to_numeric(..., errors="coerce")` explicitly (`strNum` for
numeric-looking strings carrying their parsed value, `strBad` for strings the
parser turns into NaN), since the numeric parser itself is pandas library
code outside this repository. -/
inductive PyCell where
  | missing                       -- absent / NaN cell (dropped by `dropna`)
  | flt (x : ℝ)                   -- numeric cell
  | strNum (s : String) (x : ℝ)   -- string cell that `to_numeric` parses to x
  | strBad (s : String)           -- string cell that `to_numeric` sends to NaN

/-- Net effect on one cell of `dropna` + `to_numeric(errors="coerce")` +
`dropna` in `build_naptan_index`: the numeric value, when one survives. -/
def PyCell.coerce : PyCell → Option ℝ
  | .flt x => some x
  | .strNum _ x => some x
  | _ => none

/-- The cell as a Python value handed to `mode_from_stoptype` (strings stay
strings; missing values and floats are non-strings). -/
def PyCell.toPyVal : PyCell → PyVal
  | .strNum s _ => .str s
  | .strBad s => .str s
  | _ => .nonStr

/-- A pandas data frame reduced to what the core reads: its column names and
its rows, each row a map from column name to cell. -/
structure Frame where
  cols : List String
  rows : List (String → PyCell)

/-- Embedding of `infer_col`: first candidate name present among the columns,
`none` when no candidate matches. -/
def infer_col (cols : List String) : List String → Option String
  | [] => none
  | c :: rest => if c ∈ cols then some c else infer_col cols rest

/-- Latitude candidate names, in the fixed priority order of the source. -/
def latCandidates : List String :=
  ["Latitude", "latitude", "LATITUDE", "Lat", "lat"]

/-- Longitude candidate names, in the fixed priority order of the source. -/
def lonCandidates : List String :=
  ["Longitude", "longitude", "LONGITUDE", "Lon", "lon", "Long", "long"]

/-- Stop-type candidate names, in the fixed priority order of the source. -/
def stoptypeCandidates : List String :=
  ["StopType", "StopTypeCode", "stop_type", "Stop_Type", "StopTypeRef"]

/-- One indexed stop: cleaned coordinates (degrees) and the mode derived at
build time. -/
structure Stop where
  lat : ℝ
  lon : ℝ
  mode : String

/-- The built spatial index: the surviving stops in row order (the row
ordinal is the list position). -/
structure NaptanIndex where
  stops : List Stop

/-- The ways `build_naptan_index` raises: the explicit `ValueError` when no
latitude/longitude column resolves, and the `ValueError` that
`sklearn.neighbors.BallTree` raises when handed zero samples (its input
validation requires at least one sample). -/
inductive BuildError where
  | configError
  | emptyData
deriving DecidableEq, Repr

/-- The stop a raw row contributes, when both coordinates coerce: the row is
kept with its coerced coordinates and its derived mode (`"other"` when no
stop-type column resolved). -/
def rowStop (latc lonc : String) (stc : Option String) (r : String → PyCell) :
    Option Stop :=
  match (r latc).coerce, (r lonc).coerce with
  | some la, some lo =>
      some { lat := la, lon := lo,
             mode := match stc with
                     | some c => mode_from_stoptype ((r c).toPyVal)
                     | none => "other" }
  | _, _ => none

/-- Embedding of `build_naptan_index`: resolve columns (raising when latitude
or longitude cannot be resolved), keep the rows whose coordinates coerce,
attach modes, and build the tree (which raises on an empty point set). -/
def build_naptan_index (f : Frame) : Except BuildError NaptanIndex :=
  match infer_col f.cols latCandidates, infer_col f.cols lonCandidates with
  | some latc, some lonc =>
      match f.rows.filterMap (rowStop latc lonc (infer_col f.cols stoptypeCandidates)) with
      | [] => .error .emptyData
      | s :: rest => .ok { stops := s :: rest }
  | _, _ => .error .configError

/-! ## Radius query -/

/-- Earth's mean radius in meters, `EARTH_RADIUS_M` of the source. -/
noncomputable def EARTH_RADIUS_M : ℝ := 6371000

/-- `np.radians`: degrees to radians. -/
noncomputable def deg2rad (d : ℝ) : ℝ := d * Real.pi / 180

/-- The angular haversine distance (radians) used by the BallTree metric:
`2 * arcsin (sqrt (sin²(Δφ/2) + cos φ₁ cos φ₂ sin²(Δλ/2)))` on coordinates
converted from degrees. -/
noncomputable def haversineAngle (lat1 lon1 lat2 lon2 : ℝ) : ℝ :=
  let p1 := deg2rad lat1
  let p2 := deg2rad lat2
  let l1 := deg2rad lon1
  let l2 := deg2rad lon2
  2 * Real.arcsin (Real.sqrt
    (Real.sin ((p2 - p1) / 2) ^ 2 +
      Real.cos p1 * Real.cos p2 * Real.sin ((l2 - l1) / 2) ^ 2))

/-- One row of a query's result: the stop, its ordinal in the index, and the
reported distance in meters. -/
structure ResultRow where
  ordinal : ℕ
  stop : Stop
  dist_m : ℝ

/-- The within-radius stops in index order, each annotated with its distance
in meters (`angular distance * EARTH_RADIUS_M`); the boundary is inclusive,
as in `BallTree.query_radius`. -/
noncomputable def candidateRows (idx : NaptanIndex) (lat lon radius_m : ℝ) :
    List ResultRow :=
  idx.stops.enum.filterMap fun p =>
    if haversineAngle lat lon p.2.lat p.2.lon ≤ radius_m / EARTH_RADIUS_M then
      some { ordinal := p.1, stop := p.2,
             dist_m := haversineAngle lat lon p.2.lat p.2.lon * EARTH_RADIUS_M }
    else none

/-- Result rows in distance order. -/
def distLE (a b : ResultRow) : Prop := a.dist_m ≤ b.dist_m

/-- The observable outputs of `query_nearby_stops`.  `BallTree.query_radius`
returns the matches in unspecified order and `sort_values` (default
`kind="quicksort"`) then sorts by `dist_m` with no stability guarantee, so
the query is embedded as a relation: any distance-sorted arrangement of the
within-radius rows is a possible output. -/
def QueryResult (idx : NaptanIndex) (lat lon radius_m : ℝ)
    (out : List ResultRow) : Prop :=
  List.Perm out (candidateRows idx lat lon radius_m) ∧ out.Sorted distLE

/-! ## Aggregations -/

/-- `counts_by_mode` as the per-mode tally: `df["mode"].value_counts()`
reports, for each mode, the number of result rows carrying it (and omits
modes with tally zero). -/
def counts_by_mode (out : List ResultRow) (m : String) : ℕ :=
  (out.filter fun r => decide (r.stop.mode = m)).length

/-- `nearest_by_mode` restricted to one mode: `groupby` preserves the input
(distance-sorted) order within each group and `g.iloc[0]` takes the first
row, so the entry for a mode is the first result row carrying it. -/
def nearest_by_mode (out : List ResultRow) (m : String) : Option ResultRow :=
  out.find? fun r => decide (r.stop.mode = m)

/-! ## Query lemmas -/

/-- Membership in the within-radius row list, unfolded. -/
lemma mem_candidateRows {idx : NaptanIndex} {lat lon radius_m : ℝ}
    {row : ResultRow} :
    row ∈ candidateRows idx lat lon radius_m ↔
      idx.stops[row.ordinal]? = some row.stop ∧
      haversineAngle lat lon row.stop.lat row.stop.lon ≤ radius_m / EARTH_RADIUS_M ∧
      row.dist_m = haversineAngle lat lon row.stop.lat row.stop.lon * EARTH_RADIUS_M := by
  unfold candidateRows
  rw [List.mem_filterMap]
  constructor
  · rintro ⟨⟨i, s⟩, hmem, hif⟩
    have hget : idx.stops[i]? = some s := List.mem_enum_iff_getElem?.mp hmem
    by_cases hc : haversineAngle lat lon s.lat s.lon ≤ radius_m / EARTH_RADIUS_M
    · rw [if_pos hc] at hif
      cases hif
      exact ⟨hget, hc, rfl⟩
    · rw [if_neg hc] at hif
      cases hif
  · rintro ⟨hget, hc, hd⟩
    refine ⟨(row.ordinal, row.stop), List.mem_enum_iff_getElem?.mpr hget, ?_⟩
    rw [if_pos hc]
    show some ⟨row.ordinal, row.stop,
      haversineAngle lat lon row.stop.lat row.stop.lon * EARTH_RADIUS_M⟩ = some row
    rw [← hd]

/-- The haversine angle from a point to itself is zero. -/
lemma haversineAngle_self (lat lon : ℝ) : haversineAngle lat lon lat lon = 0 := by
  simp [haversineAngle, deg2rad]

/-- C1: any output of the radius query consists exactly of the indexed stops
whose great-circle (haversine) distance from the query point is at most the
radius (boundary inclusive), each annotated with the angular distance times
Earth's mean radius 6371000 m. -/
theorem query_radius_exact (idx : NaptanIndex) (qlat qlon r : ℝ)
    (out : List ResultRow) (hr : 0 ≤ r) (h : QueryResult idx qlat qlon r out) :
    (∀ row ∈ out,
        idx.stops[row.ordinal]? = some row.stop ∧
        row.dist_m =
          haversineAngle qlat qlon row.stop.lat row.stop.lon * EARTH_RADIUS_M ∧
        row.dist_m ≤ r) ∧
    ∀ i s, idx.stops[i]? = some s →
      haversineAngle qlat qlon s.lat s.lon * EARTH_RADIUS_M ≤ r →
      ∃ row ∈ out, row.ordinal = i ∧ row.stop = s := by
  obtain ⟨hperm, _⟩ := h
  have hR : (0:ℝ) < EARTH_RADIUS_M := by norm_num [EARTH_RADIUS_M]
  constructor
  · intro row hrow
    have hcand := hperm.mem_iff.mp hrow
    rw [mem_candidateRows] at hcand
    obtain ⟨hget, hc, hd⟩ := hcand
    refine ⟨hget, hd, ?_⟩
    rw [hd]
    calc haversineAngle qlat qlon row.stop.lat row.stop.lon * EARTH_RADIUS_M
        ≤ r / EARTH_RADIUS_M * EARTH_RADIUS_M :=
          mul_le_mul_of_nonneg_right hc hR.le
      _ = r := div_mul_cancel₀ r hR.ne'
  · intro i s hget hle
    have hc : haversineAngle qlat qlon s.lat s.lon ≤ r / EARTH_RADIUS_M :=
      (le_div_iff₀ hR).mpr hle
    refine ⟨⟨i, s, haversineAngle qlat qlon s.lat s.lon * EARTH_RADIUS_M⟩, ?_, rfl, rfl⟩
    exact hperm.mem_iff.mpr (mem_candidateRows.mpr ⟨hget, hc, rfl⟩)

/-- A one-stop fixture at the origin. -/
def stop0 : Stop := ⟨0, 0, "other"⟩

/-- Index holding just `stop0`. -/
def idxOne : NaptanIndex := ⟨[stop0]⟩

/-- The within-radius rows of the one-stop fixture at radius 0. -/
lemma candidateRows_idxOne : candidateRows idxOne 0 0 0 = [⟨0, stop0, 0⟩] := by
  have h0 : haversineAngle 0 0 stop0.lat stop0.lon = 0 := haversineAngle_self 0 0
  simp [candidateRows, idxOne, h0]

/-- The sorted one-row output is a valid query result of the fixture. -/
lemma queryResult_idxOne : QueryResult idxOne 0 0 0 [⟨0, stop0, 0⟩] := by
  constructor
  · rw [candidateRows_idxOne]
  · exact List.sorted_singleton _

/-- Witness for C1 at the one-stop fixture, radius 0. -/
theorem query_radius_exact_witness :
    (0:ℝ) ≤ 0 ∧
    ((∀ row ∈ [(⟨0, stop0, 0⟩ : ResultRow)],
        idxOne.stops[row.ordinal]? = some row.stop ∧
        row.dist_m =
          haversineAngle 0 0 row.stop.lat row.stop.lon * EARTH_RADIUS_M ∧
        row.dist_m ≤ 0) ∧
      ∀ i s, idxOne.stops[i]? = some s →
        haversineAngle 0 0 s.lat s.lon * EARTH_RADIUS_M ≤ 0 →
        ∃ row ∈ [(⟨0, stop0, 0⟩ : ResultRow)], row.ordinal = i ∧ row.stop = s) :=
  ⟨le_refl 0,
   query_radius_exact idxOne 0 0 0 [⟨0, stop0, 0⟩] (le_refl 0) queryResult_idxOne⟩

/-! ## Result ordering -/

/-- C4 (amended): every query output is sorted ascending by reported
distance — adjacent rows satisfy `dist[i] ≤ dist[i+1]`.  The relative order
of equal-distance rows is not specified by the code (`sort_values` defaults
to an unstable sort over tree-order input). -/
theorem query_sorted_ascending (idx : NaptanIndex) (qlat qlon r : ℝ)
    (out : List ResultRow) (h : QueryResult idx qlat qlon r out)
    (i : ℕ) (a b : ResultRow)
    (ha : out[i]? = some a) (hb : out[i + 1]? = some b) :
    a.dist_m ≤ b.dist_m := by
  obtain ⟨hia, ha'⟩ := List.getElem?_eq_some.mp ha
  obtain ⟨hib, hb'⟩ := List.getElem?_eq_some.mp hb
  have hrel := List.pairwise_iff_getElem.mp h.2 i (i + 1) hia hib (Nat.lt_succ_self i)
  rw [ha', hb'] at hrel
  exact hrel

/-- Two identical stops at the origin: a distance-tie fixture. -/
def cexIdx : NaptanIndex := ⟨[stop0, stop0]⟩

/-- A tie output listing ordinal 1 before ordinal 0. -/
def cexOut : List ResultRow := [⟨1, stop0, 0⟩, ⟨0, stop0, 0⟩]

/-- The within-radius rows of the tie fixture at radius 0. -/
lemma candidateRows_cexIdx :
    candidateRows cexIdx 0 0 0 = [⟨0, stop0, 0⟩, ⟨1, stop0, 0⟩] := by
  have h0 : haversineAngle 0 0 stop0.lat stop0.lon = 0 := haversineAngle_self 0 0
  unfold candidateRows cexIdx
  rw [show ([stop0, stop0] : List Stop).enum = [(0, stop0), (1, stop0)] from rfl]
  rw [List.filterMap_cons, List.filterMap_cons, List.filterMap_nil]
  simp [h0]

/-- The ordinal-reversed tie output is a valid query result. -/
lemma cexQueryResult : QueryResult cexIdx 0 0 0 cexOut := by
  constructor
  · rw [candidateRows_cexIdx]
    show List.Perm [(⟨1, stop0, 0⟩ : ResultRow), ⟨0, stop0, 0⟩]
      [⟨0, stop0, 0⟩, ⟨1, stop0, 0⟩]
    exact List.Perm.swap _ _ _
  · simp [cexOut, List.sorted_cons, distLE]

/-- C4 counterexample: on the tie fixture the query may return the two
equal-distance stops against their original ordinal order, so the stable
tie-break the claim states does not hold of every output. -/
theorem query_tie_unstable :
    QueryResult cexIdx 0 0 0 cexOut ∧
    ¬ cexOut.Pairwise (fun a b => a.dist_m = b.dist_m → a.ordinal ≤ b.ordinal) := by
  refine ⟨cexQueryResult, fun hpw => ?_⟩
  rw [cexOut] at hpw
  have h10 := (List.pairwise_cons.mp hpw).1 ⟨0, stop0, 0⟩ (by simp) rfl
  exact Nat.not_succ_le_zero 0 h10

/-- Witness for the amended C4 on the tie fixture at adjacent positions. -/
theorem query_sorted_ascending_witness :
    (⟨1, stop0, 0⟩ : ResultRow).dist_m ≤ (⟨0, stop0, 0⟩ : ResultRow).dist_m :=
  query_sorted_ascending cexIdx 0 0 0 cexOut cexQueryResult 0
    ⟨1, stop0, 0⟩ ⟨0, stop0, 0⟩ rfl rfl

/-! ## Nearest-by-mode -/

/-- `find?` on a distance-sorted row list: the hit belongs to the list,
satisfies the mode test, realizes the minimum distance among rows of that
mode, and is the first such row. -/
lemma find_mode_spec (m : String) :
    ∀ out : List ResultRow, out.Sorted distLE →
      ∀ row, nearest_by_mode out m = some row →
        row ∈ out ∧ row.stop.mode = m ∧
        (∀ r2 ∈ out, r2.stop.mode = m → row.dist_m ≤ r2.dist_m) ∧
        ∃ i : ℕ, out[i]? = some row ∧
          ∀ (j : ℕ) (r2 : ResultRow),
            j < i → out[j]? = some r2 → r2.stop.mode ≠ m := by
  intro out
  induction out with
  | nil => intro _ row hfind; simp [nearest_by_mode] at hfind
  | cons a rest ih =>
    intro hsort row hfind
    by_cases hm : a.stop.mode = m
    · rw [nearest_by_mode, List.find?_cons_of_pos _ (by simp [hm])] at hfind
      cases hfind
      refine ⟨List.mem_cons_self _ _, hm, ?_, 0, List.getElem?_cons_zero,
        fun j r2 hj _ => absurd hj (Nat.not_lt_zero j)⟩
      intro r2 hr2 _
      rcases List.mem_cons.mp hr2 with rfl | hr2
      · exact le_refl _
      · exact (List.sorted_cons.mp hsort).1 r2 hr2
    · rw [nearest_by_mode, List.find?_cons_of_neg _ (by simp [hm])] at hfind
      obtain ⟨hmem, hmode, hmin, i, hi, hfirst⟩ :=
        ih (List.sorted_cons.mp hsort).2 row hfind
      refine ⟨List.mem_cons_of_mem _ hmem, hmode, ?_, i + 1, by simpa using hi, ?_⟩
      · intro r2 hr2 hm2
        rcases List.mem_cons.mp hr2 with rfl | hr2
        · exact absurd hm2 hm
        · exact hmin r2 hr2 hm2
      · intro j r2 hj hget
        cases j with
        | zero =>
          rw [List.getElem?_cons_zero] at hget
          cases hget
          exact hm
        | succ k =>
          rw [List.getElem?_cons_succ] at hget
          exact hfirst k r2 (Nat.lt_of_succ_lt_succ hj) hget

/-- C7: for every distance-sorted result set and mode present in it, the
nearest-by-mode entry is the first row of that mode and its distance is the
minimum distance among the result rows of that mode. -/
theorem nearest_by_mode_min (out : List ResultRow) (m : String) (row : ResultRow)
    (hsort : out.Sorted distLE) (hfind : nearest_by_mode out m = some row) :
    row ∈ out ∧ row.stop.mode = m ∧
    (∀ r2 ∈ out, r2.stop.mode = m → row.dist_m ≤ r2.dist_m) ∧
    ∃ i : ℕ, out[i]? = some row ∧
      ∀ (j : ℕ) (r2 : ResultRow),
        j < i → out[j]? = some r2 → r2.stop.mode ≠ m :=
  find_mode_spec m out hsort row hfind

/-- Witness for C7 on the tie fixture: mode `"other"` is present and its
nearest entry is the first row. -/
theorem nearest_by_mode_min_witness :
    (⟨1, stop0, 0⟩ : ResultRow) ∈ cexOut ∧
    (⟨1, stop0, 0⟩ : ResultRow).stop.mode = "other" ∧
    (∀ r2 ∈ cexOut, r2.stop.mode = "other" →
      (⟨1, stop0, 0⟩ : ResultRow).dist_m ≤ r2.dist_m) ∧
    ∃ i : ℕ, cexOut[i]? = some (⟨1, stop0, 0⟩ : ResultRow) ∧
      ∀ (j : ℕ) (r2 : ResultRow),
        j < i → cexOut[j]? = some r2 → r2.stop.mode ≠ "other" :=
  nearest_by_mode_min cexOut "other" ⟨1, stop0, 0⟩ cexQueryResult.2 rfl

/-! ## Column resolution and index construction -/

/-- First-match characterization of `infer_col`: it returns exactly the first
candidate (in list order) that occurs among the columns. -/
lemma infer_col_eq_some_iff {cols cands : List String} {c : String} :
    infer_col cols cands = some c ↔
      ∃ i : ℕ, cands[i]? = some c ∧ c ∈ cols ∧
        ∀ (j : ℕ) (c2 : String), j < i → cands[j]? = some c2 → c2 ∉ cols := by
  induction cands with
  | nil => simp [infer_col]
  | cons d rest ih =>
    rw [infer_col]
    by_cases hd : d ∈ cols
    · rw [if_pos hd]
      constructor
      · intro h
        injection h with h
        subst h
        exact ⟨0, List.getElem?_cons_zero, hd,
          fun j c2 hj _ => absurd hj (Nat.not_lt_zero j)⟩
      · rintro ⟨i, hget, hc, hmin⟩
        cases i with
        | zero =>
          rw [List.getElem?_cons_zero] at hget
          exact hget
        | succ k =>
          exact absurd hd (hmin 0 d (Nat.succ_pos k) List.getElem?_cons_zero)
    · rw [if_neg hd, ih]
      constructor
      · rintro ⟨i, hget, hc, hmin⟩
        refine ⟨i + 1, by simpa using hget, hc, ?_⟩
        intro j c2 hj hg
        cases j with
        | zero =>
          rw [List.getElem?_cons_zero] at hg
          injection hg with h
          exact h ▸ hd
        | succ k =>
          rw [List.getElem?_cons_succ] at hg
          exact hmin k c2 (Nat.lt_of_succ_lt_succ hj) hg
      · rintro ⟨i, hget, hc, hmin⟩
        cases i with
        | zero =>
          rw [List.getElem?_cons_zero] at hget
          injection hget with h
          exact absurd hc (h ▸ hd)
        | succ k =>
          refine ⟨k, by simpa using hget, hc, ?_⟩
          intro j c2 hj hg
          exact hmin (j + 1) c2 (Nat.succ_lt_succ hj) (by simpa using hg)

/-- C6: index construction fails with the configuration error exactly when no
latitude candidate or no longitude candidate resolves to a column; per-field
resolution returns the first candidate, in the fixed priority order, present
among the columns; and a configuration failure never also yields an index. -/
theorem config_error_exact (f : Frame) :
    (build_naptan_index f = .error .configError ↔
      infer_col f.cols latCandidates = none ∨
      infer_col f.cols lonCandidates = none) ∧
    (∀ (cands : List String) (c : String),
      infer_col f.cols cands = some c ↔
        ∃ i : ℕ, cands[i]? = some c ∧ c ∈ f.cols ∧
          ∀ (j : ℕ) (c2 : String), j < i → cands[j]? = some c2 → c2 ∉ f.cols) ∧
    (build_naptan_index f = .error .configError →
      ∀ idx, build_naptan_index f ≠ .ok idx) := by
  refine ⟨?_, fun cands c => infer_col_eq_some_iff,
    fun he idx hok => by rw [he] at hok; cases hok⟩
  cases hlat : infer_col f.cols latCandidates with
  | none => simp [build_naptan_index, hlat]
  | some latc =>
    cases hlon : infer_col f.cols lonCandidates with
    | none => simp [build_naptan_index, hlat, hlon]
    | some lonc =>
      cases hfm : f.rows.filterMap
          (rowStop latc lonc (infer_col f.cols stoptypeCandidates)) with
      | nil => simp [build_naptan_index, hlat, hlon, hfm]
      | cons s rest => simp [build_naptan_index, hlat, hlon, hfm]

/-- A frame with no resolvable coordinate columns. -/
def noCoordFrame : Frame := ⟨["foo", "bar"], []⟩

/-- Witness for C6: a frame without coordinate columns raises the
configuration error. -/
theorem config_error_exact_witness :
    build_naptan_index noCoordFrame = .error .configError :=
  (config_error_exact noCoordFrame).1.mpr (Or.inl rfl)

/-- C5 (amended): every stop a successful build retains carries coordinates
obtained by successful numeric coercion of its source row (rows whose
latitude or longitude is missing or uncoercible never produce a stop); no
range check against [-90, 90] / [-180, 180] is performed. -/
theorem index_coords_coerced (f : Frame) (idx : NaptanIndex)
    (h : build_naptan_index f = .ok idx) :
    ∃ latc lonc : String,
      infer_col f.cols latCandidates = some latc ∧
      infer_col f.cols lonCandidates = some lonc ∧
      ∀ s ∈ idx.stops, ∃ r ∈ f.rows,
        (r latc).coerce = some s.lat ∧ (r lonc).coerce = some s.lon := by
  cases hlat : infer_col f.cols latCandidates with
  | none => simp [build_naptan_index, hlat] at h
  | some latc =>
    cases hlon : infer_col f.cols lonCandidates with
    | none => simp [build_naptan_index, hlat, hlon] at h
    | some lonc =>
      refine ⟨latc, lonc, rfl, rfl, ?_⟩
      intro s hs
      cases hfm : f.rows.filterMap
          (rowStop latc lonc (infer_col f.cols stoptypeCandidates)) with
      | nil => simp [build_naptan_index, hlat, hlon, hfm] at h
      | cons s0 rest =>
        simp [build_naptan_index, hlat, hlon, hfm] at h
        have hs' : s ∈ f.rows.filterMap
            (rowStop latc lonc (infer_col f.cols stoptypeCandidates)) := by
          rw [hfm]
          rw [← h] at hs
          exact hs
        obtain ⟨r, hr, hrs⟩ := List.mem_filterMap.mp hs'
        refine ⟨r, hr, ?_⟩
        rw [rowStop.eq_def] at hrs
        cases hla : (r latc).coerce with
        | none => rw [hla] at hrs; simp at hrs
        | some la =>
          cases hlo : (r lonc).coerce with
          | none => rw [hla, hlo] at hrs; simp at hrs
          | some lo =>
            rw [hla, hlo] at hrs
            simp only at hrs
            cases hrs
            exact ⟨rfl, rfl⟩

/-- A raw row whose latitude cell holds the out-of-range number 200. -/
noncomputable def rowRange : String → PyCell := fun c =>
  if c = "Latitude" then .flt 200
  else if c = "Longitude" then .flt 0
  else .missing

/-- Frame holding only the out-of-range row. -/
noncomputable def rangeFrame : Frame := ⟨["Latitude", "Longitude"], [rowRange]⟩

/-- The stop the range fixture retains. -/
noncomputable def stopRange : Stop := ⟨200, 0, "other"⟩

/-- The build keeps the out-of-range row. -/
lemma build_rangeFrame : build_naptan_index rangeFrame = .ok ⟨[stopRange]⟩ := by
  rfl

/-- C5 counterexample: the build performs no coordinate range validation —
the stop with latitude 200 is retained although 200 lies outside [-90, 90]. -/
theorem coord_range_not_validated :
    build_naptan_index rangeFrame = .ok ⟨[stopRange]⟩ ∧
    stopRange ∈ (NaptanIndex.mk [stopRange]).stops ∧ ¬ stopRange.lat ≤ 90 := by
  refine ⟨build_rangeFrame, by simp, ?_⟩
  show ¬ (200 : ℝ) ≤ 90
  norm_num

/-- Witness for the amended C5 on the range fixture. -/
theorem index_coords_coerced_witness :
    ∃ latc lonc : String,
      infer_col rangeFrame.cols latCandidates = some latc ∧
      infer_col rangeFrame.cols lonCandidates = some lonc ∧
      ∀ s ∈ (NaptanIndex.mk [stopRange]).stops, ∃ r ∈ rangeFrame.rows,
        (r latc).coerce = some s.lat ∧ (r lonc).coerce = some s.lon :=
  index_coords_coerced rangeFrame ⟨[stopRange]⟩ build_rangeFrame

/-- Header-only empty dataset: coordinate columns resolve but there are no
rows. -/
def emptyFrame : Frame := ⟨["Latitude", "Longitude"], []⟩

/-- C8: building from the empty dataset does not succeed with an empty
index — the spatial tree construction rejects an empty sample set
(`BallTree` requires at least one sample), so the build raises instead. -/
theorem build_empty_dataset_raises :
    build_naptan_index emptyFrame = .error .emptyData := by
  rfl

/-! ## The three-stop scenario -/

/-- Scenario row A: a bus/coach station at (51.5, -0.1). -/
noncomputable def rowA : String → PyCell := fun c =>
  if c = "Latitude" then .flt 51.5
  else if c = "Longitude" then .flt (-0.1)
  else if c = "StopType" then .strBad "BCT"
  else .missing

/-- Scenario row B: a rail stop at (51.5007, -0.1). -/
noncomputable def rowB : String → PyCell := fun c =>
  if c = "Latitude" then .flt 51.5007
  else if c = "Longitude" then .flt (-0.1)
  else if c = "StopType" then .strBad "RLY"
  else .missing

/-- Scenario row C: an unknown-type stop at (60, 10). -/
noncomputable def rowC : String → PyCell := fun c =>
  if c = "Latitude" then .flt 60
  else if c = "Longitude" then .flt 10
  else if c = "StopType" then .strBad "XYZ"
  else .missing

/-- The three-stop scenario dataset. -/
noncomputable def scenarioFrame : Frame :=
  ⟨["Latitude", "Longitude", "StopType"], [rowA, rowB, rowC]⟩

/-- Stop A as indexed: mode bus (exact table hit for BCT). -/
noncomputable def stopA : Stop := ⟨51.5, -0.1, "bus"⟩

/-- Stop B as indexed: mode rail (exact table hit for RLY). -/
noncomputable def stopB : Stop := ⟨51.5007, -0.1, "rail"⟩

/-- Stop C as indexed: mode other (no table hit, no heuristic fires). -/
noncomputable def stopC : Stop := ⟨60, 10, "other"⟩

/-- The index the scenario dataset builds. -/
noncomputable def scenarioIdx : NaptanIndex := ⟨[stopA, stopB, stopC]⟩

/-- Building the scenario dataset yields exactly the three classified
stops. -/
lemma build_scenario : build_naptan_index scenarioFrame = .ok scenarioIdx := by
  rfl

/-- The exact reported distance from the query point to stop B. -/
noncomputable def distAB : ℝ := 7 * Real.pi / 1800000 * EARTH_RADIUS_M

/-- Haversine angle between two points on the same meridian of longitude,
with a small nonnegative latitude difference. -/
lemma hav_same_lon (lat1 lat2 lon : ℝ) (h1 : 0 ≤ lat2 - lat1)
    (h2 : (lat2 - lat1) * Real.pi / 360 ≤ Real.pi / 2) :
    haversineAngle lat1 lon lat2 lon = (lat2 - lat1) * Real.pi / 180 := by
  have hpi := Real.pi_nonneg
  simp only [haversineAngle, deg2rad]
  have hz : (lon * Real.pi / 180 - lon * Real.pi / 180) / 2 = 0 := by ring
  rw [hz, Real.sin_zero]
  have hx : (lat2 * Real.pi / 180 - lat1 * Real.pi / 180) / 2 =
      (lat2 - lat1) * Real.pi / 360 := by ring
  rw [hx]
  have hx0 : 0 ≤ (lat2 - lat1) * Real.pi / 360 := by positivity
  have hxpi : (lat2 - lat1) * Real.pi / 360 ≤ Real.pi := by linarith
  have hsin0 : 0 ≤ Real.sin ((lat2 - lat1) * Real.pi / 360) :=
    Real.sin_nonneg_of_nonneg_of_le_pi hx0 hxpi
  rw [show (0:ℝ) ^ 2 = 0 by norm_num, mul_zero, add_zero, Real.sqrt_sq hsin0,
    Real.arcsin_sin (by linarith) h2]
  ring

/-- The haversine angle from the query point to stop B, exactly. -/
lemma hav_AB :
    haversineAngle 51.5 (-0.1) 51.5007 (-0.1) = 7 * Real.pi / 1800000 := by
  have hpi := Real.pi_nonneg
  rw [hav_same_lon 51.5 51.5007 (-0.1) (by norm_num) (by nlinarith)]
  ring

/-- The haversine angle from the query point to stop C is at least the
latitude separation of 8.5 degrees in radians. -/
lemma hav_AC_lb :
    17 * Real.pi / 360 ≤ haversineAngle 51.5 (-0.1) 60 10 := by
  have hpi := Real.pi_pos
  simp only [haversineAngle, deg2rad]
  set x : ℝ := (60 * Real.pi / 180 - 51.5 * Real.pi / 180) / 2 with hxdef
  have hxval : x = 17 * Real.pi / 720 := by rw [hxdef]; ring
  have hx0 : 0 ≤ x := by rw [hxval]; positivity
  have hxhalf : x ≤ Real.pi / 2 := by rw [hxval]; linarith
  have hsin0 : 0 ≤ Real.sin x :=
    Real.sin_nonneg_of_nonneg_of_le_pi hx0 (by linarith)
  have hcos1 : 0 ≤ Real.cos (51.5 * Real.pi / 180) :=
    Real.cos_nonneg_of_mem_Icc ⟨by linarith, by linarith⟩
  have hcos2 : 0 ≤ Real.cos (60 * Real.pi / 180) :=
    Real.cos_nonneg_of_mem_Icc ⟨by linarith, by linarith⟩
  have hterm : 0 ≤ Real.cos (51.5 * Real.pi / 180) * Real.cos (60 * Real.pi / 180) *
      Real.sin ((10 * Real.pi / 180 - -0.1 * Real.pi / 180) / 2) ^ 2 :=
    mul_nonneg (mul_nonneg hcos1 hcos2) (sq_nonneg _)
  have hmono : Real.sin x ≤ Real.sqrt (Real.sin x ^ 2 +
      Real.cos (51.5 * Real.pi / 180) * Real.cos (60 * Real.pi / 180) *
        Real.sin ((10 * Real.pi / 180 - -0.1 * Real.pi / 180) / 2) ^ 2) := by
    calc Real.sin x = Real.sqrt (Real.sin x ^ 2) := (Real.sqrt_sq hsin0).symm
      _ ≤ _ := Real.sqrt_le_sqrt (by nlinarith [sq_nonneg (Real.sin x)])
  have harc := Real.monotone_arcsin hmono
  rw [Real.arcsin_sin (by linarith) hxhalf] at harc
  linarith

/-- Evaluation of the scenario query's within-radius rows: A and B survive
with their exact distances, C is excluded. -/
lemma candidateRows_scenario :
    candidateRows scenarioIdx 51.5 (-0.1) 100 =
      [⟨0, stopA, 0⟩, ⟨1, stopB, distAB⟩] := by
  have eA : haversineAngle 51.5 (-0.1) stopA.lat stopA.lon = 0 :=
    haversineAngle_self 51.5 (-0.1)
  have eB : haversineAngle 51.5 (-0.1) stopB.lat stopB.lon =
      7 * Real.pi / 1800000 := hav_AB
  have eC : 17 * Real.pi / 360 ≤ haversineAngle 51.5 (-0.1) stopC.lat stopC.lon :=
    hav_AC_lb
  have hcondA : haversineAngle 51.5 (-0.1) stopA.lat stopA.lon ≤
      100 / EARTH_RADIUS_M := by
    rw [eA]
    simp only [EARTH_RADIUS_M]
    norm_num
  have hcondB : haversineAngle 51.5 (-0.1) stopB.lat stopB.lon ≤
      100 / EARTH_RADIUS_M := by
    rw [eB]
    simp only [EARTH_RADIUS_M]
    rw [div_le_div_iff₀ (by norm_num) (by norm_num)]
    nlinarith [Real.pi_lt_d2]
  have hcondC : ¬ haversineAngle 51.5 (-0.1) stopC.lat stopC.lon ≤
      100 / EARTH_RADIUS_M := by
    rw [not_le]
    refine lt_of_lt_of_le ?_ eC
    simp only [EARTH_RADIUS_M]
    rw [div_lt_div_iff₀ (by norm_num) (by norm_num)]
    nlinarith [Real.pi_gt_three]
  have hA0 : (0:ℝ) ≤ 100 / EARTH_RADIUS_M := by rw [← eA]; exact hcondA
  have hB0 : 7 * Real.pi / 1800000 ≤ 100 / EARTH_RADIUS_M := by
    rw [← eB]; exact hcondB
  unfold candidateRows
  rw [show scenarioIdx.stops.enum = [(0, stopA), (1, stopB), (2, stopC)] from rfl]
  simp only [List.filterMap_cons, List.filterMap_nil]
  simp [hcondC, eA, eB, hA0, hB0, distAB]

/-- A distance-sorted permutation of a two-row list with strictly increasing
distances is that list itself. -/
lemma perm_pair_sorted {a b : ResultRow} {out : List ResultRow}
    (hperm : List.Perm out [a, b]) (hsort : out.Sorted distLE)
    (hab : a.dist_m < b.dist_m) : out = [a, b] := by
  have hx : ∀ x ∈ out, x = a ∨ x = b := fun x hx => by
    simpa using hperm.subset hx
  cases out with
  | nil => exact absurd hperm.length_eq (by simp)
  | cons x rest =>
    cases rest with
    | nil => exact absurd hperm.length_eq (by simp)
    | cons y rest2 =>
      cases rest2 with
      | cons z rest3 => exact absurd hperm.length_eq (by simp)
      | nil =>
        rcases hx x (by simp) with rfl | rfl
        · have hy : y = b := by
            have h2 : List.Perm [y] [b] := (List.perm_cons x).mp hperm
            simpa using h2.subset (by simp)
          rw [hy]
        · have hba : List.Perm [x, y] [x, a] :=
            hperm.trans (List.Perm.swap x a [])
          have hy : y = a := by
            have h2 : List.Perm [y] [a] := (List.perm_cons x).mp hba
            simpa using h2.subset (by simp)
          subst hy
          have hle : distLE x y := (List.sorted_cons.mp hsort).1 y (by simp)
          exact absurd hle (not_le.mpr hab)

/-- A nonzero per-mode tally exhibits a row of that mode. -/
lemma counts_by_mode_pos {out : List ResultRow} {m : String}
    (h : counts_by_mode out m ≠ 0) : ∃ r ∈ out, r.stop.mode = m := by
  unfold counts_by_mode at h
  obtain ⟨r, hr⟩ :=
    List.exists_mem_of_length_pos (Nat.pos_of_ne_zero h)
  have hmem := List.mem_filter.mp hr
  exact ⟨r, hmem.1, of_decide_eq_true hmem.2⟩

/-- The sorted two-row output is a valid result of the scenario query. -/
lemma scenarioQueryResult :
    QueryResult scenarioIdx 51.5 (-0.1) 100 [⟨0, stopA, 0⟩, ⟨1, stopB, distAB⟩] := by
  constructor
  · rw [candidateRows_scenario]
  · rw [List.sorted_cons]
    refine ⟨?_, List.sorted_singleton _⟩
    intro b hb
    rw [List.mem_singleton] at hb
    subst hb
    show (0:ℝ) ≤ distAB
    unfold distAB EARTH_RADIUS_M
    positivity

/-- C2: building the three-stop dataset (BCT at (51.5,-0.1), RLY at
(51.5007,-0.1), XYZ at (60,10)) and querying (51.5,-0.1) at radius 100 m
returns exactly A then B, with A at distance 0, B at distance within 1 m of
78 m; the mode tallies are bus 1 and rail 1 with no other mode present; and
the nearest bus entry is A's row, the nearest rail entry B's row. -/
theorem scenario_three_stops :
    build_naptan_index scenarioFrame = .ok scenarioIdx ∧
    scenarioIdx.stops = [stopA, stopB, stopC] ∧
    |distAB - 78| < 1 ∧
    ∀ out, QueryResult scenarioIdx 51.5 (-0.1) 100 out →
      out = [⟨0, stopA, 0⟩, ⟨1, stopB, distAB⟩] ∧
      counts_by_mode out "bus" = 1 ∧
      counts_by_mode out "rail" = 1 ∧
      (∀ m, counts_by_mode out m ≠ 0 → m = "bus" ∨ m = "rail") ∧
      nearest_by_mode out "bus" = some ⟨0, stopA, 0⟩ ∧
      nearest_by_mode out "rail" = some ⟨1, stopB, distAB⟩ := by
  refine ⟨build_scenario, rfl, ?_, ?_⟩
  · rw [abs_lt]
    unfold distAB EARTH_RADIUS_M
    constructor <;> nlinarith [Real.pi_gt_d6, Real.pi_lt_d2]
  · intro out hq
    have hperm := hq.1
    rw [candidateRows_scenario] at hperm
    have hout : out = [⟨0, stopA, 0⟩, ⟨1, stopB, distAB⟩] := by
      apply perm_pair_sorted hperm hq.2
      show (0:ℝ) < distAB
      unfold distAB EARTH_RADIUS_M
      positivity
    subst hout
    refine ⟨rfl, rfl, rfl, ?_, rfl, rfl⟩
    intro m hm
    obtain ⟨r, hr, hrm⟩ := counts_by_mode_pos hm
    rw [List.mem_cons, List.mem_singleton] at hr
    rcases hr with rfl | rfl
    · exact Or.inl hrm.symm
    · exact Or.inr hrm.symm

/-- Witness for C2: the canonical sorted output satisfies the query relation
and all stated aggregates. -/
theorem scenario_three_stops_witness :
    ([(⟨0, stopA, 0⟩ : ResultRow), ⟨1, stopB, distAB⟩] =
      [(⟨0, stopA, 0⟩ : ResultRow), ⟨1, stopB, distAB⟩]) ∧
    counts_by_mode [⟨0, stopA, 0⟩, ⟨1, stopB, distAB⟩] "bus" = 1 ∧
    counts_by_mode [⟨0, stopA, 0⟩, ⟨1, stopB, distAB⟩] "rail" = 1 ∧
    (∀ m, counts_by_mode [⟨0, stopA, 0⟩, ⟨1, stopB, distAB⟩] m ≠ 0 →
      m = "bus" ∨ m = "rail") ∧
    nearest_by_mode [⟨0, stopA, 0⟩, ⟨1, stopB, distAB⟩] "bus" =
      some ⟨0, stopA, 0⟩ ∧
    nearest_by_mode [⟨0, stopA, 0⟩, ⟨1, stopB, distAB⟩] "rail" =
      some ⟨1, stopB, distAB⟩ :=
  scenario_three_stops.2.2.2 [⟨0, stopA, 0⟩, ⟨1, stopB, distAB⟩]
    scenarioQueryResult

end PTFinder
